import Mathlib

/-!
Verification of the cot_publisher crate against its specification.

This file gives a shallow embedding of the crate's core logic:
the `CursorOnTarget` record and its setters (cursor_on_target.rs),
the wire codec `rpc_from_cot` / `get_varint` (lib.rs), one-iteration
step functions for the two publisher tasks (lib.rs), the liveness
check `check_connected` (lib.rs), and the connection builder
`create_connection` (connection.rs).  External effects (the protobuf
encoder, socket writes, TCP/TLS connect outcomes, the system clock)
are passed in as explicit parameters/oracles; everything else is a
direct translation of the Rust source.
-/

namespace CotModel

/-- Model of the crate error type `PublishError` (lib.rs). -/
inductive PublishError where
  | SendError (msg : String)
  | ConnectionError (msg : String)
deriving Repr, DecidableEq

/-- The `Display` rendering of `PublishError` generated by `thiserror`
(lib.rs, the `#[error(..)]` format strings). -/
def PublishError.display : PublishError → String
  | .SendError m => "Error sending COT message: " ++ m
  | .ConnectionError m => "Connection error: " ++ m

/-- `UDP_MAGIC` (lib.rs): magic bytes for UDP TAK_PROTO. -/
def UDP_MAGIC : List Nat := [0xbf, 0x01, 0xbf]

/-- `TCP_MAGIC` (lib.rs): magic byte for TCP TAK_PROTO. -/
def TCP_MAGIC : List Nat := [0xbf]

/-- LEB128 unsigned varint encoding, as produced by
`VarintWriter::write_u32_varint` from the varint_rs crate. -/
def varintEncode (n : Nat) : List Nat :=
  if _h : n < 128 then [n]
  else (n % 128 + 128) :: varintEncode (n / 128)
termination_by n
decreasing_by
  exact Nat.div_lt_self (by omega) (by omega)

/-- LEB128 unsigned varint decoding (the reader's view of the wire). -/
def varintDecode : List Nat → Option Nat
  | [] => none
  | b :: rest =>
    if b < 128 then some b
    else (varintDecode rest).map (fun v => (b - 128) + 128 * v)

/-- `get_varint` (lib.rs): converts a u32 size to a varint byte vector.
The u32 truncation (`message_buffer.len() as u32`) happens at the call
site and is modelled there. -/
def get_varint (size : Nat) : List Nat := varintEncode size

theorem varintDecode_varintEncode (n : Nat) :
    varintDecode (varintEncode n) = some n := by
  induction n using Nat.strong_induction_on with
  | _ n ih =>
    unfold varintEncode
    by_cases h : n < 128
    · simp [h, varintDecode]
    · rw [dif_neg h]
      have hd : n / 128 < n := Nat.div_lt_self (by omega) (by omega)
      simp only [varintDecode, ih _ hd, Option.map_some']
      rw [if_neg (by omega)]
      congr 1
      omega

/-- `Position` (cursor_on_target.rs). -/
structure Position where
  lat : Float
  lng : Float
  hae : Float
  ce : Float
  le : Float

/-- `Contact` (cursor_on_target.rs). -/
structure Contact where
  endpoint : String
  callsign : String
deriving Repr, DecidableEq

/-- `PrecisionLocation` (cursor_on_target.rs). -/
structure PrecisionLocation where
  altsrc : String
  geopointsrc : String
deriving Repr, DecidableEq

/-- `CursorOnTarget` (cursor_on_target.rs).  The `publish_sender` field is
modelled by its presence only (`has_publish_sender`); the channel itself
lives outside the record. -/
structure CursorOnTarget where
  stale_time_ms : Nat
  uid : String
  contact : Option Contact
  type : String
  xml_detail : Option String
  position : Option Position
  precision_location : Option PrecisionLocation
  how : String
  access : String
  qos : String
  opex : String
  has_publish_sender : Bool

/-- `CursorOnTarget::set_position` (cursor_on_target.rs): if a position
already exists, only `lat`/`lng` are updated; otherwise a new position is
created with `hae`, `ce`, `le` set to `0.0`. -/
def CursorOnTarget.set_position (c : CursorOnTarget) (lat lng : Float) :
    CursorOnTarget :=
  match c.position with
  | some pos => { c with position := some { pos with lat := lat, lng := lng } }
  | none =>
    { c with position := some { lat := lat, lng := lng, hae := 0.0, ce := 0.0, le := 0.0 } }

namespace tak_proto

/-- `tak_proto::TakControl` (generated protobuf struct). -/
structure TakControl where
  min_proto_version : Nat
  max_proto_version : Nat
  contact_uid : String
deriving Repr, DecidableEq

/-- `tak_proto::Contact`. -/
structure Contact where
  endpoint : String
  callsign : String
deriving Repr, DecidableEq

/-- `tak_proto::PrecisionLocation`. -/
structure PrecisionLocation where
  geopointsrc : String
  altsrc : String
deriving Repr, DecidableEq

/-- `tak_proto::Detail`; the sub-messages never produced by this crate
(`group`, `status`, `takv`, `track`) are modelled as `Option Unit`. -/
structure Detail where
  xml_detail : String
  contact : Option Contact
  group : Option Unit
  precision_location : Option PrecisionLocation
  status : Option Unit
  takv : Option Unit
  track : Option Unit

/-- `tak_proto::CotEvent`. -/
structure CotEvent where
  type : String
  access : String
  qos : String
  opex : String
  uid : String
  send_time : Nat
  start_time : Nat
  stale_time : Nat
  how : String
  lat : Float
  lon : Float
  hae : Float
  ce : Float
  le : Float
  detail : Option Detail

/-- `tak_proto::TakMessage`. -/
structure TakMessage where
  tak_control : Option TakControl
  cot_event : Option CotEvent

end tak_proto

/-- `rpc_from_cot` (lib.rs), parameterized by the millisecond timestamp that
`get_time` returns at encode time.  u64 addition wraps (release-mode Rust),
hence the `% 2 ^ 64` on `stale_time`. -/
def rpc_from_cot (time : Nat) (cot : CursorOnTarget) : tak_proto.TakMessage :=
  let pos := cot.position.getD { lat := 0.0, lng := 0.0, hae := 0.0, ce := 0.0, le := 0.0 }
  { tak_control := some
      { min_proto_version := 2
        max_proto_version := 2
        contact_uid := cot.uid }
    cot_event := some
      { type := cot.type
        access := cot.access
        qos := cot.qos
        opex := cot.opex
        uid := cot.uid
        send_time := time
        start_time := time
        stale_time := (time + cot.stale_time_ms) % 2 ^ 64
        how := cot.how
        lat := pos.lat
        lon := pos.lng
        hae := pos.hae
        ce := pos.ce
        le := pos.le
        detail := some
          { xml_detail := cot.xml_detail.getD ""
            contact := cot.contact.map (fun c => { endpoint := c.endpoint, callsign := c.callsign })
            group := none
            precision_location := cot.precision_location.map
              (fun p => { geopointsrc := p.geopointsrc, altsrc := p.altsrc })
            status := none
            takv := none
            track := none } } }

/-- A value sent on a queue item's one-shot acknowledgement slot. -/
inductive Ack where
  | ok
  | err (e : PublishError)
deriving Repr, DecidableEq

/-- What a loop iteration decides about the task: keep looping, or return
from the task function with an error. -/
inductive LoopControl where
  | next
  | exit (e : PublishError)
deriving Repr, DecidableEq

/-- One attempted `send_to` on the UDP socket. -/
structure UdpSend where
  bytes : List Nat
  dest : String
deriving Repr, DecidableEq

/-- Environment of one iteration of the multicast serving loop: what
`receiver.recv()` returned (`none` = channel closed and empty; the Bool is
whether the item carries an acknowledgement slot), the timestamp `get_time`
returns this iteration, and the outcome of the UDP `send_to`
(`none` = success, `some msg` = the io error's display). -/
structure MulticastIter where
  recv : Option (CursorOnTarget × Bool)
  time : Nat
  sendResult : Option String

/-- Observable effects of one multicast loop iteration. -/
structure MulticastStep where
  sends : List UdpSend
  acks : List Ack
  control : LoopControl
deriving Repr, DecidableEq

/-- The destination string `format!("{address}:{port}")` computed by
`multicast_publisher_task` before its loop (lib.rs). -/
def multicast_destination (address : String) (port : Nat) : String :=
  address ++ ":" ++ toString port

/-- One iteration of the serving loop of `multicast_publisher_task`
(lib.rs).  `enc` is the external protobuf encoder
(`TakMessage::encode`, `none` = encoding failure).  Mirrors the source:
a recv of `none` falls through and the loop continues; on encoding
failure the item is skipped; the datagram is `UDP_MAGIC ++ buffer`; the
acknowledgement slot (if present) is sent `Ok` or the send error; the
loop always continues (the body contains no `return`/`break`). -/
def multicast_publisher_task_step (enc : tak_proto.TakMessage → Option (List Nat))
    (destination : String) (it : MulticastIter) : MulticastStep :=
  match it.recv with
  | none => { sends := [], acks := [], control := .next }
  | some (cot, hasSlot) =>
    match enc (rpc_from_cot it.time cot) with
    | none => { sends := [], acks := [], control := .next }
    | some messageBuffer =>
      let buffer := UDP_MAGIC ++ messageBuffer
      let send : UdpSend := { bytes := buffer, dest := destination }
      match it.sendResult with
      | none =>
        { sends := [send]
          acks := if hasSlot then [Ack.ok] else []
          control := .next }
      | some e =>
        let msg := "Failed to send COT message data: " ++ e
        { sends := [send]
          acks := if hasSlot then [Ack.err (PublishError.SendError msg)] else []
          control := .next }

/-- Accumulated run of the multicast serving loop over a finite schedule of
iteration environments.  `result = some e` means the task function returned
`Err e`; `none` means the loop is still going when the schedule ends. -/
structure MulticastRun where
  sends : List UdpSend
  acks : List Ack
  result : Option PublishError
deriving Repr, DecidableEq

/-- Run the multicast serving loop over a list of iteration environments. -/
def multicast_publisher_task_run (enc : tak_proto.TakMessage → Option (List Nat))
    (destination : String) : List MulticastIter → MulticastRun
  | [] => { sends := [], acks := [], result := none }
  | it :: rest =>
    let s := multicast_publisher_task_step enc destination it
    match s.control with
    | .exit e => { sends := s.sends, acks := s.acks, result := some e }
    | .next =>
      let r := multicast_publisher_task_run enc destination rest
      { sends := s.sends ++ r.sends, acks := s.acks ++ r.acks, result := r.result }

/-- Environment of one iteration of the TAK-server serving loop: the recv
outcome, the timestamp, and the outcomes of the three stream writes (magic
byte, varint size, message data); `none` = the write succeeded. -/
structure TakIter where
  recv : Option (CursorOnTarget × Bool)
  time : Nat
  magicResult : Option String
  sizeResult : Option String
  dataResult : Option String

/-- Observable effects of one TAK-server loop iteration. -/
structure TakStep where
  writes : List (List Nat)
  acks : List Ack
  control : LoopControl
deriving Repr, DecidableEq

/-- Third write of the TAK-server loop body (the serialized message data),
reached from the earlier writes exactly as in the source: a failed earlier
write falls through to here whenever the item has no acknowledgement slot. -/
def takserver_write_data (t : List (List Nat)) (hasSlot : Bool)
    (messageBuffer : List Nat) (it : TakIter) : TakStep :=
  let t3 := t ++ [messageBuffer]
  match it.dataResult with
  | some e =>
    let pe := PublishError.SendError ("Failed to send COT message data: " ++ e)
    if hasSlot then
      { writes := t3, acks := [Ack.err (PublishError.SendError pe.display)], control := .exit pe }
    else { writes := t3, acks := [], control := .next }
  | none => { writes := t3, acks := [], control := .next }

/-- Second write of the TAK-server loop body (the varint-encoded size;
the source truncates the buffer length with `as u32`). -/
def takserver_write_size (t : List (List Nat)) (hasSlot : Bool)
    (messageBuffer : List Nat) (it : TakIter) : TakStep :=
  let t2 := t ++ [get_varint (messageBuffer.length % 2 ^ 32)]
  match it.sizeResult with
  | some e =>
    let pe := PublishError.SendError ("Failed to send COT message size: " ++ e)
    if hasSlot then
      { writes := t2, acks := [Ack.err (PublishError.SendError pe.display)], control := .exit pe }
    else takserver_write_data t2 hasSlot messageBuffer it
  | none => takserver_write_data t2 hasSlot messageBuffer it

/-- One iteration of the serving loop of `takserver_publisher_task`
(lib.rs).  Mirrors the source exactly: each of the three writes is
attempted in order; after a failed write the task returns the error only
inside the `if let Some(sender)` arm, i.e. only when the item carries an
acknowledgement slot — otherwise execution falls through to the next
write; after a fully successful item nothing is sent on the slot and the
loop continues. -/
def takserver_publisher_task_step (enc : tak_proto.TakMessage → Option (List Nat))
    (it : TakIter) : TakStep :=
  match it.recv with
  | none => { writes := [], acks := [], control := .next }
  | some (cot, hasSlot) =>
    match enc (rpc_from_cot it.time cot) with
    | none => { writes := [], acks := [], control := .next }
    | some messageBuffer =>
      let t1 : List (List Nat) := [TCP_MAGIC]
      match it.magicResult with
      | some e =>
        let pe := PublishError.SendError ("Failed to send COT message magic byte: " ++ e)
        if hasSlot then
          { writes := t1, acks := [Ack.err (PublishError.SendError pe.display)], control := .exit pe }
        else takserver_write_size t1 hasSlot messageBuffer it
      | none => takserver_write_size t1 hasSlot messageBuffer it

/-- Accumulated run of the TAK-server serving loop over a finite schedule. -/
structure TakRun where
  writes : List (List Nat)
  acks : List Ack
  result : Option PublishError
deriving Repr, DecidableEq

/-- Run the TAK-server serving loop over a list of iteration environments. -/
def takserver_publisher_task_run (enc : tak_proto.TakMessage → Option (List Nat)) :
    List TakIter → TakRun
  | [] => { writes := [], acks := [], result := none }
  | it :: rest =>
    let s := takserver_publisher_task_step enc it
    match s.control with
    | .exit e => { writes := s.writes, acks := s.acks, result := some e }
    | .next =>
      let r := takserver_publisher_task_run enc rest
      { writes := s.writes ++ r.writes, acks := s.acks ++ r.acks, result := r.result }

/-- The state `CotPublisher::check_connected` observes: the `publish_task`
slot is empty (already reaped), or the task is still running, or the task
has finished and joining it yields either a join error (display string) or
the task's stored `Result`. -/
inductive TaskState where
  | reaped
  | running
  | finished (join : Except String (Except PublishError Unit))

/-- Outcome of one `check_connected` call: whether `publish_task` is `None`
afterwards (so later calls take the reaped path), and the returned value. -/
structure CheckOutcome where
  taskTaken : Bool
  result : Except PublishError Unit

/-- `CotPublisher::check_connected` (lib.rs).  Mirrors the source: the
reaped path errors with "Task has already completed"; a running task
returns `Ok`; a finished task is taken and awaited — a join error is
propagated, and otherwise the task's stored result is bound to `_` and
the function returns the fixed "unknown error" regardless of it. -/
def check_connected : TaskState → CheckOutcome
  | .reaped =>
    { taskTaken := true
      result := .error (.ConnectionError "Task has already completed") }
  | .running => { taskTaken := false, result := .ok () }
  | .finished (.error j) =>
    { taskTaken := true
      result := .error (.ConnectionError ("Failed joining publish task: " ++ j)) }
  | .finished (.ok _) =>
    { taskTaken := true
      result := .error (.ConnectionError "Publish task stopped with unknown error") }

/-- `Credentials` (keys/mod.rs), with DER blobs kept opaque as strings. -/
structure Credentials where
  certificate : String
  private_key : String
  root_cert : Option (List String)

/-- `Source` (keys/mod.rs). -/
inductive Source where
  | None
  | File (path : String)
  | FileP12 (path passwd : String)
  | Str (content : String)

/-- `TakServerSetting` (connection.rs). -/
structure TakServerSetting where
  tls : Bool
  client_credentials : Option Credentials
  root_cert : Option Source
  ignore_invalid : Bool
  verify_hostname : Bool
  auto_reconnect : Bool

/-- Which server-certificate verifier the built TLS client config uses:
the assembled root store, or `DangerousAcceptAnyServerCertVerifier`
(connection.rs), which unconditionally accepts any certificate and
signature. -/
inductive Verifier where
  | rootStore (roots : List String)
  | dangerousAcceptAny
deriving Repr, DecidableEq

/-- The relevant content of the built rustls `ClientConfig`. -/
structure BuiltClientConfig where
  verifier : Verifier
  clientAuth : Option (String × String)
deriving Repr, DecidableEq

/-- `Connection` (connection.rs): plain TCP or TLS with the built config. -/
inductive Connection where
  | Tcp
  | Tls (cfg : BuiltClientConfig)
deriving Repr, DecidableEq

/-- Network I/O performed by `create_connection`, in order. -/
inductive NetEvent where
  | tcpConnect (addr : String)
  | tlsHandshake (serverName : String)
deriving Repr, DecidableEq

/-- Outcomes of the external effects inside `create_connection`:
`TcpStream::connect`, loading+parsing `settings.root_cert` (used only when
that source is present), `root_store.add`, `with_client_auth_cert`,
`ServerName::try_from`, and the TLS connect.  `none` = success. -/
structure ConnEnv where
  tcpResult : Option String
  rootLoadResult : Except String (List String)
  storeAddResult : Option String
  clientAuthResult : Option String
  serverNameResult : Option String
  tlsResult : Option String

/-- `create_connection` (connection.rs), as a function from the URL's host
and port, the settings, and the effect outcomes, to the ordered list of
network events performed and the result.  Mirrors the source: the TCP
connection is opened first; with TLS disabled that stream is returned;
otherwise the root certificates are resolved (explicit source first, else
the credentials' bundled root, else the configuration error), the root
store is filled, the client config is built (the dangerous accept-any
verifier exactly when `ignore_invalid`, client auth exactly when
credentials are present), the server name is parsed, and the TLS
handshake runs. -/
def create_connection (host : Option String) (port : Option Nat)
    (settings : TakServerSetting) (env : ConnEnv) :
    List NetEvent × Except String Connection :=
  match host with
  | none => ([], .error "Host string was missing")
  | some h =>
    match port with
    | none => ([], .error "Port number was missing")
    | some p =>
      let trace := [NetEvent.tcpConnect (h ++ ":" ++ toString p)]
      match env.tcpResult with
      | some e => (trace, .error e)
      | none =>
        if settings.tls = false then (trace, .ok .Tcp)
        else
          let rootRes : Except String (List String) :=
            match settings.root_cert with
            | some _ => env.rootLoadResult
            | none =>
              match settings.client_credentials with
              | some creds =>
                match creds.root_cert with
                | some rc => .ok rc
                | none => .error "No root certificate provided for TLS connection"
              | none => .error "No root certificate provided for TLS connection"
          match rootRes with
          | .error e => (trace, .error e)
          | .ok roots =>
            match env.storeAddResult with
            | some e =>
              (trace, .error ("Failed to add certificate to root certificate store: " ++ e))
            | none =>
              let cfgRes : Except String BuiltClientConfig :=
                match settings.client_credentials with
                | some creds =>
                  match env.clientAuthResult with
                  | some e => .error ("Failed to build client config: " ++ e)
                  | none =>
                    if settings.ignore_invalid then
                      .ok { verifier := .dangerousAcceptAny
                            clientAuth := some (creds.certificate, creds.private_key) }
                    else
                      .ok { verifier := .rootStore roots
                            clientAuth := some (creds.certificate, creds.private_key) }
                | none =>
                  if settings.ignore_invalid then
                    .ok { verifier := .dangerousAcceptAny, clientAuth := none }
                  else .ok { verifier := .rootStore roots, clientAuth := none }
              match cfgRes with
              | .error e => (trace, .error e)
              | .ok cfg =>
                match env.serverNameResult with
                | some e => (trace, .error ("Invalid server name: " ++ e))
                | none =>
                  let trace2 := trace ++ [NetEvent.tlsHandshake h]
                  match env.tlsResult with
                  | some e => (trace2, .error e)
                  | none => (trace2, .ok (.Tls cfg))

/-! Concrete fixtures used to evaluate the model. -/

/-- A concrete record as in the spec's test scenarios (uid "t1"). -/
def sampleCot : CursorOnTarget :=
  { stale_time_ms := 60000, uid := "t1", contact := none, type := "a-f-G-E-V-C",
    xml_detail := none, position := none, precision_location := none,
    how := "m-g", access := "", qos := "", opex := "", has_publish_sender := true }

/-- An encoder that always succeeds with a 3-byte serialization. -/
def encK : tak_proto.TakMessage → Option (List Nat) := fun _ => some [1, 2, 3]

/-- An encoder that always fails (the encoding-failure path). -/
def encFail : tak_proto.TakMessage → Option (List Nat) := fun _ => none

/-- An effect environment for `create_connection` in which every external
effect succeeds. -/
def allOkConnEnv : ConnEnv :=
  { tcpResult := none, rootLoadResult := .ok ["rootCA"], storeAddResult := none,
    clientAuthResult := none, serverNameResult := none, tlsResult := none }

/-- TLS settings with no root certificate from any source. -/
def noRootSettings : TakServerSetting :=
  { tls := true, client_credentials := none, root_cert := none,
    ignore_invalid := false, verify_hostname := true, auto_reconnect := false }

/-- TLS settings with `ignore_invalid` set and no root certificate. -/
def noRootBypassSettings : TakServerSetting :=
  { tls := true, client_credentials := none, root_cert := none,
    ignore_invalid := true, verify_hostname := false, auto_reconnect := false }

/-! Claim theorems. -/

/-- C1: at the failing input — a transport write failure while processing a
queue item — the code does not do what the claim states: the multicast task
reports the failure to the acknowledgement slot but its loop body contains
no exit path, so the task keeps running and sends the next item; and the
TAK-server task returns the error only from inside the
`if let Some(sender)` arm, so an item without an acknowledgement slot
leaves the task running and the two remaining writes are still attempted. -/
theorem C1_write_failure_not_fatal :
    (multicast_publisher_task_run encK "239.2.3.1:6969"
      [ { recv := some (sampleCot, true), time := 5, sendResult := some "unreachable" },
        { recv := some (sampleCot, false), time := 6, sendResult := none } ]).result = none
    ∧ (multicast_publisher_task_run encK "239.2.3.1:6969"
      [ { recv := some (sampleCot, true), time := 5, sendResult := some "unreachable" },
        { recv := some (sampleCot, false), time := 6, sendResult := none } ]).sends.length = 2
    ∧ (takserver_publisher_task_step encK
        { recv := some (sampleCot, false), time := 5, magicResult := some "broken pipe",
          sizeResult := none, dataResult := none }).control = LoopControl.next
    ∧ (takserver_publisher_task_step encK
        { recv := some (sampleCot, false), time := 5, magicResult := some "broken pipe",
          sizeResult := none, dataResult := none }).writes.length = 3 :=
  ⟨rfl, rfl, rfl, rfl⟩

/-- C2: once every producer handle is dropped and the queue is empty,
`recv()` returns `None`; but the serving loop is `loop { if let Some(..) }`
with no `else break`, so the body just continues — however many scheduling
steps the task gets, the loop has not ended and the task has not exited
(only the `abort()` in `Drop` stops it). -/
theorem C2_closed_queue_loop_never_ends
    (enc : tak_proto.TakMessage → Option (List Nat)) (dest : String) (t n : Nat) :
    (multicast_publisher_task_step enc dest
      { recv := none, time := t, sendResult := none }).control = LoopControl.next
    ∧ (takserver_publisher_task_step enc
      { recv := none, time := t, magicResult := none, sizeResult := none,
        dataResult := none }).control = LoopControl.next
    ∧ (multicast_publisher_task_run enc dest
        (List.replicate n (⟨none, t, none⟩ : MulticastIter))).result = none
    ∧ (takserver_publisher_task_run enc
        (List.replicate n (⟨none, t, none, none, none⟩ : TakIter))).result = none := by
  refine ⟨rfl, rfl, ?_, ?_⟩
  · induction n with
    | zero => rfl
    | succ n ih =>
      simpa [List.replicate, multicast_publisher_task_run,
        multicast_publisher_task_step] using ih
  · induction n with
    | zero => rfl
    | succ n ih =>
      simpa [List.replicate, takserver_publisher_task_run,
        takserver_publisher_task_step] using ih

/-- C3: `check_connected` returns success while the task runs and reports
"Task has already completed" once reaped, but on the first call that
observes termination it binds the joined task's stored result to `_` and
returns the fixed "unknown error" instead of surfacing that stored
result. -/
theorem C3_stored_result_discarded :
    check_connected .running = { taskTaken := false, result := .ok () }
    ∧ check_connected .reaped
      = { taskTaken := true
          result := .error (.ConnectionError "Task has already completed") }
    ∧ check_connected (.finished (.ok (.error
        (.SendError "Failed to send COT message data: broken pipe"))))
      = { taskTaken := true
          result := .error (.ConnectionError "Publish task stopped with unknown error") }
    ∧ (check_connected (.finished (.ok (.error
        (.SendError "Failed to send COT message data: broken pipe"))))).result
      ≠ .error (.SendError "Failed to send COT message data: broken pipe") := by
  refine ⟨rfl, rfl, rfl, ?_⟩
  intro h
  simp [check_connected] at h

/-- C10: `set_position` only updates `lat`/`lng` of an existing position
(keeping `hae`, `ce`, `le`) or creates a fresh position with the given
`lat`/`lng` and zero `hae`/`ce`/`le`, and leaves every other field of the
record unchanged. -/
theorem C10_set_position (c : CursorOnTarget) (lat lng : Float) :
    (c.set_position lat lng).position
      = some (match c.position with
          | some p => { p with lat := lat, lng := lng }
          | none => { lat := lat, lng := lng, hae := 0.0, ce := 0.0, le := 0.0 })
    ∧ (c.set_position lat lng).stale_time_ms = c.stale_time_ms
    ∧ (c.set_position lat lng).uid = c.uid
    ∧ (c.set_position lat lng).contact = c.contact
    ∧ (c.set_position lat lng).type = c.type
    ∧ (c.set_position lat lng).xml_detail = c.xml_detail
    ∧ (c.set_position lat lng).precision_location = c.precision_location
    ∧ (c.set_position lat lng).how = c.how
    ∧ (c.set_position lat lng).access = c.access
    ∧ (c.set_position lat lng).qos = c.qos
    ∧ (c.set_position lat lng).opex = c.opex
    ∧ (c.set_position lat lng).has_publish_sender = c.has_publish_sender := by
  cases hp : c.position <;>
    simp [CursorOnTarget.set_position, hp]

/-- C4 counterexample: with TLS enabled and no root certificate from any
source, `create_connection` does fail with the configuration error, but
only after performing network I/O: the trace already contains the TCP
connect, refuting "before attempting any network I/O (in particular,
before opening the TCP connection)". -/
theorem C4_counterexample :
    (create_connection (some "takserver.example.com") (some 8089)
        noRootSettings allOkConnEnv).2
      = .error "No root certificate provided for TLS connection"
    ∧ (create_connection (some "takserver.example.com") (some 8089)
        noRootSettings allOkConnEnv).1
      = [NetEvent.tcpConnect "takserver.example.com:8089"]
    ∧ (create_connection (some "takserver.example.com") (some 8089)
        noRootSettings allOkConnEnv).1 ≠ [] :=
  ⟨rfl, rfl, by decide⟩

/-- C4 (amended): when TLS is enabled and neither an explicit
root-certificate source nor a root bundled with the mutual-TLS credentials
is available, `create_connection` fails with the configuration error before
any TLS handshake is attempted — but after the TCP connection has been
opened (the trace is exactly the TCP connect). -/
theorem C4_amended_no_root_fails_before_tls (h : String) (p : Nat)
    (settings : TakServerSetting) (env : ConnEnv)
    (htls : settings.tls = true)
    (hroot : settings.root_cert = none)
    (hcred : ∀ c, settings.client_credentials = some c → c.root_cert = none)
    (htcp : env.tcpResult = none) :
    (create_connection (some h) (some p) settings env).2
      = .error "No root certificate provided for TLS connection"
    ∧ (create_connection (some h) (some p) settings env).1
      = [NetEvent.tcpConnect (h ++ ":" ++ toString p)] := by
  cases hcc : settings.client_credentials with
  | none => simp [create_connection, htcp, htls, hroot, hcc]
  | some c =>
    have hcr := hcred c hcc
    simp [create_connection, htcp, htls, hroot, hcc, hcr]

/-- C4 witness: the amended theorem applied at a concrete input. -/
theorem C4_amended_witness :
    (create_connection (some "takserver.example.com") (some 8089)
        noRootSettings allOkConnEnv).2
      = .error "No root certificate provided for TLS connection"
    ∧ (create_connection (some "takserver.example.com") (some 8089)
        noRootSettings allOkConnEnv).1
      = [NetEvent.tcpConnect ("takserver.example.com" ++ ":" ++ toString 8089)] :=
  C4_amended_no_root_fails_before_tls "takserver.example.com" 8089
    noRootSettings allOkConnEnv rfl rfl
    (fun c hc => by simp [noRootSettings] at hc) rfl

/-- C5 counterexample: with `ignore_invalid = true` and no root certificate
configured anywhere, `create_connection` does not succeed against any
server: it returns the no-root configuration error and its trace contains
no TLS handshake, refuting "connection still succeeds". -/
theorem C5_counterexample :
    (create_connection (some "takserver.example.com") (some 8089)
        noRootBypassSettings allOkConnEnv).2
      = .error "No root certificate provided for TLS connection"
    ∧ (create_connection (some "takserver.example.com") (some 8089)
        noRootBypassSettings allOkConnEnv).1
      = [NetEvent.tcpConnect "takserver.example.com:8089"] :=
  ⟨rfl, rfl⟩

/-- C5 (amended): when Transport Settings request TLS with
`ignore_invalid = true` and no root certificate is configured (neither an
explicit source nor one bundled with credentials), `create_connection`
does not reach a handshake at all: it fails with the configuration error
"No root certificate provided for TLS connection" (after the TCP connect),
performing no TLS handshake — the validation bypass only takes effect when
a root certificate is also available. -/
theorem C5_amended_bypass_still_requires_root (h : String) (p : Nat)
    (settings : TakServerSetting) (env : ConnEnv)
    (htls : settings.tls = true)
    (_hii : settings.ignore_invalid = true)
    (hroot : settings.root_cert = none)
    (hcred : ∀ c, settings.client_credentials = some c → c.root_cert = none)
    (htcp : env.tcpResult = none) :
    (create_connection (some h) (some p) settings env).2
      = .error "No root certificate provided for TLS connection"
    ∧ (∀ sn, NetEvent.tlsHandshake sn ∉ (create_connection (some h) (some p) settings env).1) := by
  have hmain := C4_amended_no_root_fails_before_tls h p settings env htls hroot hcred htcp
  refine ⟨hmain.1, ?_⟩
  intro sn hmem
  rw [hmain.2] at hmem
  simp at hmem

/-- C5 witness: the amended theorem applied at a concrete input. -/
theorem C5_amended_witness :
    (create_connection (some "takserver.example.com") (some 8089)
        noRootBypassSettings allOkConnEnv).2
      = .error "No root certificate provided for TLS connection"
    ∧ (∀ sn, NetEvent.tlsHandshake sn ∉
        (create_connection (some "takserver.example.com") (some 8089)
          noRootBypassSettings allOkConnEnv).1) :=
  C5_amended_bypass_still_requires_root "takserver.example.com" 8089
    noRootBypassSettings allOkConnEnv rfl rfl rfl
    (fun c hc => by simp [noRootBypassSettings] at hc) rfl

/-- Helper: one multicast loop iteration sends at most one value on an
acknowledgement slot. -/
theorem multicast_step_acks_le_one (enc : tak_proto.TakMessage → Option (List Nat))
    (dest : String) (it : MulticastIter) :
    (multicast_publisher_task_step enc dest it).acks.length ≤ 1 := by
  obtain ⟨recv, tm, sr⟩ := it
  rcases recv with _ | ⟨c, hs⟩
  · simp [multicast_publisher_task_step]
  · rcases he : enc (rpc_from_cot tm c) with _ | buf
    · simp [multicast_publisher_task_step, he]
    · rcases sr with _ | e <;> cases hs <;>
        simp [multicast_publisher_task_step, he]

/-- Helper: one TAK-server loop iteration sends at most one value on an
acknowledgement slot. -/
theorem takserver_step_acks_le_one (enc : tak_proto.TakMessage → Option (List Nat))
    (it : TakIter) :
    (takserver_publisher_task_step enc it).acks.length ≤ 1 := by
  obtain ⟨recv, tm, m1, m2, m3⟩ := it
  rcases recv with _ | ⟨c, hs⟩
  · simp [takserver_publisher_task_step]
  · rcases he : enc (rpc_from_cot tm c) with _ | buf
    · simp [takserver_publisher_task_step, he]
    · rcases m1 with _ | e1 <;> rcases m2 with _ | e2 <;> rcases m3 with _ | e3 <;>
        cases hs <;>
          simp [takserver_publisher_task_step, takserver_write_size,
            takserver_write_data, he]

/-- C6 counterexample: a queue item that carries an acknowledgement slot is
discarded with the slot unresolved on two paths: when encoding fails (both
tasks drop the item without sending anything on the slot), and when the
TAK-server task writes the whole frame successfully (it sends nothing on
the slot either), refuting "resolved exactly once ... on every processing
path". -/
theorem C6_counterexample :
    (takserver_publisher_task_step encFail
      { recv := some (sampleCot, true), time := 5, magicResult := none,
        sizeResult := none, dataResult := none }).acks = []
    ∧ (multicast_publisher_task_step encFail "239.2.3.1:6969"
      { recv := some (sampleCot, true), time := 5, sendResult := none }).acks = []
    ∧ (takserver_publisher_task_step encK
      { recv := some (sampleCot, true), time := 5, magicResult := none,
        sizeResult := none, dataResult := none }).acks = [] :=
  ⟨rfl, rfl, rfl⟩

/-- C6 (amended): an acknowledgement slot is never resolved more than once;
the multicast task resolves it exactly once (success or described failure)
whenever encoding succeeds; the TAK-server task resolves it exactly once
when encoding succeeds and one of its three writes fails, but drops it
unresolved when every write succeeds; on encoding failure both tasks drop
the item with the slot unresolved. -/
theorem C6_amended_ack_resolution (enc : tak_proto.TakMessage → Option (List Nat))
    (dest : String) (cot : CursorOnTarget) (buf : List Nat)
    (mit : MulticastIter) (tit : TakIter)
    (hm : mit.recv = some (cot, true))
    (ht : tit.recv = some (cot, true))
    (hem : enc (rpc_from_cot mit.time cot) = some buf)
    (het : enc (rpc_from_cot tit.time cot) = some buf) :
    (multicast_publisher_task_step enc dest mit).acks.length = 1
    ∧ (takserver_publisher_task_step enc tit).acks.length
      = (if tit.magicResult = none ∧ tit.sizeResult = none ∧ tit.dataResult = none
          then 0 else 1)
    ∧ (∀ enc2 mit2, (multicast_publisher_task_step enc2 dest mit2).acks.length ≤ 1)
    ∧ (∀ enc2 tit2, (takserver_publisher_task_step enc2 tit2).acks.length ≤ 1)
    ∧ ((multicast_publisher_task_step encFail dest mit).acks = []
        ∧ (takserver_publisher_task_step encFail tit).acks = []) := by
  refine ⟨?_, ?_, fun enc2 mit2 => multicast_step_acks_le_one enc2 dest mit2,
    fun enc2 tit2 => takserver_step_acks_le_one enc2 tit2, ?_, ?_⟩
  · unfold multicast_publisher_task_step
    rcases hw : mit.sendResult with _ | e <;> simp [hm, hem, hw]
  · unfold takserver_publisher_task_step takserver_write_size takserver_write_data
    rcases h1 : tit.magicResult with _ | e1 <;>
      rcases h2 : tit.sizeResult with _ | e2 <;>
        rcases h3 : tit.dataResult with _ | e3 <;>
          simp [ht, het, h1, h2, h3]
  · unfold multicast_publisher_task_step
    simp [hm, encFail]
  · unfold takserver_publisher_task_step
    simp [ht, encFail]

/-- C6 witness: the amended theorem applied at a concrete input. -/
theorem C6_amended_witness :
    (multicast_publisher_task_step encK "239.2.3.1:6969"
      { recv := some (sampleCot, true), time := 5, sendResult := none }).acks.length = 1
    ∧ (takserver_publisher_task_step encK
      { recv := some (sampleCot, true), time := 5, magicResult := none,
        sizeResult := none, dataResult := none }).acks.length
      = (if (none : Option String) = none ∧ (none : Option String) = none
            ∧ (none : Option String) = none then 0 else 1)
    ∧ (∀ enc2 mit2,
        (multicast_publisher_task_step enc2 "239.2.3.1:6969" mit2).acks.length ≤ 1)
    ∧ (∀ enc2 tit2, (takserver_publisher_task_step enc2 tit2).acks.length ≤ 1)
    ∧ ((multicast_publisher_task_step encFail "239.2.3.1:6969"
        { recv := some (sampleCot, true), time := 5, sendResult := none }).acks = []
      ∧ (takserver_publisher_task_step encFail
        { recv := some (sampleCot, true), time := 5, magicResult := none,
          sizeResult := none, dataResult := none }).acks = []) :=
  C6_amended_ack_resolution encK "239.2.3.1:6969" sampleCot [1, 2, 3]
    { recv := some (sampleCot, true), time := 5, sendResult := none }
    { recv := some (sampleCot, true), time := 5, magicResult := none,
      sizeResult := none, dataResult := none }
    rfl rfl rfl rfl

/-- C7: the structured message built at encode time has
`min_proto_version = max_proto_version = 2`, carries the record's uid and
type, `send_time = start_time` (the timestamp captured at encode time),
`stale_time = send_time + stale_time_ms`, position fields equal to the
record's position or all zero when none is set, and a detail block whose
contact and precision-location sub-messages are present exactly when the
corresponding optional sub-records are set. -/
theorem C7_rpc_from_cot_fields (time : Nat) (cot : CursorOnTarget)
    (h : time + cot.stale_time_ms < 2 ^ 64) :
    ∃ ev : tak_proto.CotEvent,
      (rpc_from_cot time cot).cot_event = some ev
      ∧ (rpc_from_cot time cot).tak_control
        = some { min_proto_version := 2, max_proto_version := 2, contact_uid := cot.uid }
      ∧ ev.uid = cot.uid
      ∧ ev.type = cot.type
      ∧ ev.send_time = time
      ∧ ev.start_time = ev.send_time
      ∧ ev.stale_time = ev.send_time + cot.stale_time_ms
      ∧ ev.lat = (match cot.position with | some p => p.lat | none => 0.0)
      ∧ ev.lon = (match cot.position with | some p => p.lng | none => 0.0)
      ∧ ev.hae = (match cot.position with | some p => p.hae | none => 0.0)
      ∧ ev.ce = (match cot.position with | some p => p.ce | none => 0.0)
      ∧ ev.le = (match cot.position with | some p => p.le | none => 0.0)
      ∧ ∃ d : tak_proto.Detail,
          ev.detail = some d
          ∧ d.contact.isSome = cot.contact.isSome
          ∧ d.precision_location.isSome = cot.precision_location.isSome := by
  refine ⟨_, rfl, rfl, rfl, rfl, rfl, rfl, Nat.mod_eq_of_lt h,
    ?_, ?_, ?_, ?_, ?_, _, rfl, ?_, ?_⟩
  · cases cot.position <;> rfl
  · cases cot.position <;> rfl
  · cases cot.position <;> rfl
  · cases cot.position <;> rfl
  · cases cot.position <;> rfl
  · cases cot.contact <;> rfl
  · cases cot.precision_location <;> rfl

/-- C7 witness: the theorem applied at a concrete timestamp and record. -/
theorem C7_rpc_from_cot_fields_witness :
    1727000000000 + sampleCot.stale_time_ms < 2 ^ 64
    ∧ ∃ ev : tak_proto.CotEvent,
      (rpc_from_cot 1727000000000 sampleCot).cot_event = some ev
      ∧ (rpc_from_cot 1727000000000 sampleCot).tak_control
        = some { min_proto_version := 2, max_proto_version := 2, contact_uid := sampleCot.uid }
      ∧ ev.uid = sampleCot.uid
      ∧ ev.type = sampleCot.type
      ∧ ev.send_time = 1727000000000
      ∧ ev.start_time = ev.send_time
      ∧ ev.stale_time = ev.send_time + sampleCot.stale_time_ms
      ∧ ev.lat = (match sampleCot.position with | some p => p.lat | none => 0.0)
      ∧ ev.lon = (match sampleCot.position with | some p => p.lng | none => 0.0)
      ∧ ev.hae = (match sampleCot.position with | some p => p.hae | none => 0.0)
      ∧ ev.ce = (match sampleCot.position with | some p => p.ce | none => 0.0)
      ∧ ev.le = (match sampleCot.position with | some p => p.le | none => 0.0)
      ∧ ∃ d : tak_proto.Detail,
          ev.detail = some d
          ∧ d.contact.isSome = sampleCot.contact.isSome
          ∧ d.precision_location.isSome = sampleCot.precision_location.isSome :=
  ⟨by decide, C7_rpc_from_cot_fields 1727000000000 sampleCot (by decide)⟩

/-- C8: for a successfully encoded record whose three stream writes
succeed, the TAK-server task writes exactly three frames — the single
magic byte 0xBF, the varint of the (u32-truncated) buffer length, and the
serialized bytes — and the varint decodes back to the exact byte length of
the serialized message. -/
theorem C8_tcp_framing (enc : tak_proto.TakMessage → Option (List Nat))
    (tit : TakIter) (cot : CursorOnTarget) (hasSlot : Bool) (buf : List Nat)
    (hrecv : tit.recv = some (cot, hasSlot))
    (henc : enc (rpc_from_cot tit.time cot) = some buf)
    (hlen : buf.length < 2 ^ 32)
    (h1 : tit.magicResult = none) (h2 : tit.sizeResult = none)
    (h3 : tit.dataResult = none) :
    (takserver_publisher_task_step enc tit).writes
      = [[0xbf], get_varint (buf.length % 2 ^ 32), buf]
    ∧ varintDecode (get_varint (buf.length % 2 ^ 32)) = some buf.length
    ∧ (takserver_publisher_task_step enc tit).writes.length = 3 := by
  have hw : (takserver_publisher_task_step enc tit).writes
      = [[0xbf], get_varint (buf.length % 2 ^ 32), buf] := by
    simp [takserver_publisher_task_step, takserver_write_size, takserver_write_data,
      hrecv, henc, h1, h2, h3, TCP_MAGIC]
  refine ⟨hw, ?_, by rw [hw]; rfl⟩
  rw [Nat.mod_eq_of_lt hlen, get_varint, varintDecode_varintEncode]

/-- C8 witness: the theorem applied at a concrete item and encoder. -/
theorem C8_tcp_framing_witness :
    (takserver_publisher_task_step encK
      { recv := some (sampleCot, false), time := 5, magicResult := none,
        sizeResult := none, dataResult := none }).writes
      = [[0xbf], get_varint (([1, 2, 3] : List Nat).length % 2 ^ 32), [1, 2, 3]]
    ∧ varintDecode (get_varint (([1, 2, 3] : List Nat).length % 2 ^ 32))
      = some ([1, 2, 3] : List Nat).length
    ∧ (takserver_publisher_task_step encK
      { recv := some (sampleCot, false), time := 5, magicResult := none,
        sizeResult := none, dataResult := none }).writes.length = 3 :=
  C8_tcp_framing encK
    { recv := some (sampleCot, false), time := 5, magicResult := none,
      sizeResult := none, dataResult := none }
    sampleCot false [1, 2, 3] rfl rfl (by decide) rfl rfl rfl

/-- C9: for a successfully encoded record, the multicast task sends a
single UDP datagram consisting of exactly the three magic bytes
0xBF 0x01 0xBF followed immediately by the serialized message bytes,
addressed to the configured address:port destination string. -/
theorem C9_udp_datagram (enc : tak_proto.TakMessage → Option (List Nat))
    (address : String) (port : Nat) (mit : MulticastIter)
    (cot : CursorOnTarget) (hasSlot : Bool) (buf : List Nat)
    (hrecv : mit.recv = some (cot, hasSlot))
    (henc : enc (rpc_from_cot mit.time cot) = some buf) :
    (multicast_publisher_task_step enc (multicast_destination address port) mit).sends
      = [{ bytes := [0xbf, 0x01, 0xbf] ++ buf, dest := address ++ ":" ++ toString port }] := by
  rcases hw : mit.sendResult with _ | e <;>
    cases hasSlot <;>
      simp [multicast_publisher_task_step, multicast_destination, hrecv, henc, hw,
        UDP_MAGIC]

/-- C9 witness: the theorem applied at a concrete item and encoder. -/
theorem C9_udp_datagram_witness :
    (multicast_publisher_task_step encK (multicast_destination "239.2.3.1" 6969)
      { recv := some (sampleCot, true), time := 5, sendResult := none }).sends
      = [{ bytes := [0xbf, 0x01, 0xbf] ++ [1, 2, 3],
           dest := "239.2.3.1" ++ ":" ++ toString 6969 }] :=
  C9_udp_datagram encK "239.2.3.1" 6969
    { recv := some (sampleCot, true), time := 5, sendResult := none }
    sampleCot true [1, 2, 3] rfl rfl

end CotModel
